import Mathlib

/-!
Verification of the capture-cycle control logic of `scoop_witness_api`
(`src/scoop_witness_api/tasks.py`, function `start_capture_process`).

The task is embedded shallowly: all external effects (job store, filesystem,
port probe, engine subprocess, webhook POST, celery `delay` calls) are made
explicit.  The environment record `Env` supplies the outcome of every
external interaction for one cycle, and the cycle is a pure function from
`Env` (plus the `proxy_port` argument) to a `Result` record collecting the
final job-store contents and every observable effect, in order.

The `Capture` record mirrors the fields of the peewee model that
`tasks.py` reads and writes.  The model class itself (`models.py`) is not
part of the sources under verification; its field list is modelled from the
data-model section of the specification.
-/

namespace Scoop

/-- Modelled from the spec: the capture-job record (spec section 3; the
`models.py` source defining the peewee `Capture` class is not available).
Fields are exactly those read or written by `tasks.py`, plus `exit_code`,
which the data model of the spec lists among the run artifacts.
Timestamps are abstract clock values; `none` means NULL. -/
structure Capture where
  id_capture : Nat
  url : String
  callback_url : Option String
  status : String
  created_timestamp : Nat
  started_timestamp : Option Nat
  ended_timestamp : Option Nat
  stdout_logs : Option String
  stderr_logs : Option String
  summary : Option (List (Sum String (List String)))
  exit_code : Option Int
  deriving DecidableEq

/-- The parsed JSON summary, as far as `tasks.py` looks at it: the values of
the `attachments` map, each either a single filename or a list of filenames
(tasks.py lines 245-249 iterates `json_summary["attachments"].values()`;
the keys are never used). -/
structure Manifest where
  attachments : List (Sum String (List String))
  deriving DecidableEq

/-- Outcome of the HTTP HEAD probe issued at tasks.py line 96. -/
inductive ProbeOutcome where
  /-- `requests.head` returned a response (any HTTP status). -/
  | response
  /-- `requests.head` raised `requests.exceptions.ReadTimeout`. -/
  | readTimeout
  /-- `requests.head` raised any other exception (connection refused,
  unreachable, DNS failure, ...). -/
  | otherError
  deriving DecidableEq

/-- Outcome of the engine subprocess run (tasks.py lines 186-198).
`completed` means `process.communicate` returned within its timeout;
`poll` is the value of `process.poll()` afterwards (`none` models a Python
`None`).  `timedOut` means `communicate` raised `subprocess.TimeoutExpired`. -/
inductive EngineResult where
  | completed (poll : Option Int) (stdout : String) (stderr : String)
  | timedOut
  deriving DecidableEq

/-- Signals the worker can send to the engine process.  The code only ever
calls `process.kill()`; `terminate` exists so that statements about a
graceful terminate signal can be expressed. -/
inductive Signal where
  | terminate
  | kill
  deriving DecidableEq

/-- The application configuration values read by `tasks.py`. -/
structure Config where
  temporary_storage_path : String
  downgrade_to_warc : Bool
  /-- `SCOOP_CLI_OPTIONS["--capture-timeout"]`, in milliseconds. -/
  capture_timeout_ms : Nat
  /-- `SCOOP_TIMEOUT_FUSE`, in seconds. -/
  scoop_timeout_fuse : Nat
  deriving DecidableEq

/-- Environment for one cycle: the state of every external collaborator, and
the outcome of every external interaction the cycle may perform. -/
structure Env where
  cfg : Config
  /-- Whether `Path(DEPLOYMENT_SENTINEL_PATH).exists()` at cycle start. -/
  sentinelExists : Bool
  /-- Contents of the job store at cycle start. -/
  db : List Capture
  /-- Outcome of the port probe, if one is issued. -/
  probe : ProbeOutcome
  /-- Models the concurrent worker of spec section 3: when true, another
  worker claims the selected job (sets its status to started) between this
  cycle reading the job and executing its conditional update. -/
  raceClaim : Bool
  /-- Abstract clock value returned by `datetime.datetime.utcnow()`. -/
  now : Nat
  /-- When true, `os.makedirs(storage_path)` raises (the folder exists). -/
  makedirsFails : Bool
  /-- Outcome of the engine subprocess run. -/
  engine : EngineResult
  /-- Set of filesystem paths that exist when the verification step runs. -/
  fs : List String
  /-- Result of `json.load` on the JSON summary file, when it is opened;
  `none` means the parse raises. -/
  manifestDoc : Option Manifest
  /-- Whether the webhook `requests.post` succeeds (when attempted). -/
  webhookOk : Bool
  deriving DecidableEq

/-- Everything observable about one cycle. -/
structure Result where
  /-- Contents of the job store after the cycle. -/
  db : List Capture
  /-- The in-memory `capture` variable at the time the finally block runs
  (its value has always just been persisted by a `save` when set). -/
  capture : Option Capture
  /-- Ports passed to `start_capture_process.delay`, in call order. -/
  delayed : List Nat
  /-- Signals sent to the engine process, in order. -/
  signals : List Signal
  /-- Durations of `time.sleep` calls, in seconds, in order. -/
  sleeps : List Nat
  /-- Webhook POST attempts: (url, timeout in seconds), in order. -/
  posts : List (String × Nat)
  /-- Urls of webhook POST attempts that failed (the except branch at
  tasks.py lines 316-318 only logs them). -/
  postFailures : List String
  /-- Whether the conditional claim update (lines 141-146) was executed. -/
  casExecuted : Bool
  /-- Number of rows matched by the conditional claim update. -/
  casMatched : Nat
  /-- Whether the engine subprocess was spawned (line 186). -/
  engineSpawned : Bool
  deriving DecidableEq

/-- Path separator (`os.sep` on the POSIX systems the app targets). -/
def sep : String := "/"

/-- tasks.py line 122: the job-scoped temporary storage folder. -/
def storagePath (cfg : Config) (cid : Nat) : String :=
  cfg.temporary_storage_path ++ sep ++ toString cid

/-- tasks.py line 123: path of the JSON summary file. -/
def jsonSummaryPath (cfg : Config) (cid : Nat) : String :=
  storagePath cfg cid ++ sep ++ "archive.json"

/-- tasks.py line 124: path of the attachments folder. -/
def attachmentsPath (cfg : Config) (cid : Nat) : String :=
  storagePath cfg cid ++ sep ++ "attachments"

/-- tasks.py lines 127-131: archive format, downgraded when the flag is on. -/
def archiveFormat (cfg : Config) : String :=
  if cfg.downgrade_to_warc then "warc-gzipped" else "wacz"

/-- tasks.py lines 128-136: path of the resulting archive file. -/
def archivePath (cfg : Config) (cid : Nat) : String :=
  storagePath cfg cid ++ sep ++ "archive." ++
    (if archiveFormat cfg == "wacz" then "wacz" else "warc.gz")

/-- tasks.py lines 94-101: classification of the probed port.  The probe
sets `proxy_port_is_available` to False both when the HEAD request returns
a response and when it raises ReadTimeout; any other exception leaves the
port classified as available (free). -/
def proxyPortIsAvailable : ProbeOutcome → Bool
  | ProbeOutcome.response => false
  | ProbeOutcome.readTimeout => false
  | ProbeOutcome.otherError => true

/-- Oldest element of a list of captures by creation timestamp (ties keep
the earlier element). -/
def oldest : List Capture → Option Capture
  | [] => none
  | c :: rest =>
    match oldest rest with
    | none => some c
    | some b => if c.created_timestamp ≤ b.created_timestamp then some c else some b

/-- tasks.py lines 83-88: the single pending capture pulled from the queue
(status filter, ordered by creation timestamp, first row). -/
def selectOldestPending (db : List Capture) : Option Capture :=
  oldest (db.filter (fun c => c.status == "pending"))

/-- Lookup of a capture row by id (`Capture.get`, tasks.py line 150). -/
def getById (db : List Capture) (cid : Nat) : Option Capture :=
  db.find? (fun c => c.id_capture == cid)

/-- tasks.py lines 141-146: the conditional claim update, applied to the
store.  Rows matching id AND status pending get status started. -/
def claimUpdate (db : List Capture) (cid : Nat) : List Capture :=
  db.map (fun c =>
    if c.id_capture == cid && c.status == "pending"
    then { c with status := "started" } else c)

/-- Number of rows matched by the conditional claim update (the value
`.execute()` returns; tasks.py ignores it). -/
def claimMatched (db : List Capture) (cid : Nat) : Nat :=
  (db.filter (fun c => c.id_capture == cid && c.status == "pending")).length

/-- `capture.save()`: writes the in-memory record back to its row. -/
def saveCapture (db : List Capture) (cap : Capture) : List Capture :=
  db.map (fun c => if c.id_capture == cap.id_capture then cap else c)

/-- Modelled from the spec (section 3, claim-race invariant): the action of
a concurrent worker that wins the claim race, transitioning the selected
job from pending to started between this cycle reading the job and
executing its own conditional update. -/
def raceInterfere (db : List Capture) (cid : Nat) : List Capture :=
  db.map (fun c =>
    if c.id_capture == cid then { c with status := "started" } else c)

/-- tasks.py lines 245-249: flatten the values of the attachments map into
one list of filenames (a list value is concatenated, a single filename is
appended). -/
def flattenAttachments (vals : List (Sum String (List String))) : List String :=
  vals.foldl
    (fun acc v =>
      match v with
      | Sum.inr names => acc ++ names
      | Sum.inl name => acc ++ [name])
    []

/-- tasks.py lines 251-255: the attachment-existence loop.  Starting from
the current success flag, each expected filename that does not exist under
the attachments folder clears the flag; the loop never exits early. -/
def checkAttachmentFiles (fs : List String) (apath : String)
    (files : List String) (success : Bool) : Bool :=
  files.foldl
    (fun succ f => if fs.contains (apath ++ sep ++ f) then succ else false)
    success

/-- Effects and final record of the engine run plus verification
(tasks.py lines 186-263 and the TimeoutExpired handler at 271-279),
given the in-memory capture `cap1` as of the spawn.  Returns the capture
record as of its final save, the signals sent and the sleeps performed. -/
def runEngineAndVerify (env : Env) (cap1 : Capture) (cid : Nat) :
    Capture × List Signal × List Nat :=
  match env.engine with
  | EngineResult.timedOut =>
    -- communicate raised TimeoutExpired: handler at lines 271-279 marks the
    -- capture failed, stamps ended, saves, then calls process.kill().
    ({ cap1 with status := "failed", ended_timestamp := some env.now },
     [Signal.kill], [])
  | EngineResult.completed poll out err =>
    -- Lines 200-203: if poll() returned None, sleep 5 seconds then kill.
    let sigs : List Signal := if poll.isNone then [Signal.kill] else []
    let slps : List Nat := if poll.isNone then [5] else []
    -- Lines 205-206 and 212-214: store both streams, assume failure,
    -- stamp ended.
    let cap2 := { cap1 with
      stdout_logs := some out, stderr_logs := some err,
      status := "failed", ended_timestamp := some env.now }
    if poll == some 0 then
      if env.fs.contains (archivePath env.cfg cid)
          && env.fs.contains (jsonSummaryPath env.cfg cid) then
        match env.manifestDoc with
        | none =>
          -- json.load raised: the catch-all handler at lines 283-288 keeps
          -- the failed status, stamps ended and saves.
          (cap2, sigs, slps)
        | some m =>
          -- Lines 243-263: store the summary, check every flattened
          -- attachment filename, set the final status.
          let ok := checkAttachmentFiles env.fs (attachmentsPath env.cfg cid)
            (flattenAttachments m.attachments) true
          let capS := { cap2 with
            summary := some m.attachments,
            status := if ok then "success" else "failed" }
          (capS, sigs, slps)
      else
        -- Archive or summary missing: success is false, record saved failed.
        (cap2, sigs, slps)
    else
      -- Non-zero (or None) exit code: record saved failed.
      (cap2, sigs, slps)

/-- Intermediate state at the end of the try/except part of the cycle,
before the finally block runs. -/
structure Mid where
  db : List Capture
  capture : Option Capture
  delayed : List Nat
  signals : List Signal
  sleeps : List Nat
  casExecuted : Bool
  casMatched : Nat
  engineSpawned : Bool

/-- A Mid with no effects and the store untouched. -/
def mid0 (env : Env) : Mid :=
  { db := env.db, capture := none, delayed := [], signals := [], sleeps := [],
    casExecuted := false, casMatched := 0, engineSpawned := false }

/-- tasks.py lines 141-265 (plus exception handlers): the claim, stamp,
folder creation, engine run and verification pipeline for the selected
capture `cap0`. -/
def claimedPipeline (env : Env) (cap0 : Capture) : Mid :=
  let cid := cap0.id_capture
  -- The concurrent claimant may act between the select and the update.
  let db1 := if env.raceClaim then raceInterfere env.db cid else env.db
  -- Lines 141-146: conditional update; its match count is not inspected.
  let db2 := claimUpdate db1 cid
  let matched := claimMatched db1 cid
  match getById db2 cid with
  | none =>
    -- Capture.get raised (row vanished): catch-all handler, with the
    -- in-memory capture still the one selected at line 114.
    let capF := { cap0 with status := "failed", ended_timestamp := some env.now }
    { db := saveCapture db2 capF, capture := some capF, delayed := [],
      signals := [], sleeps := [], casExecuted := true, casMatched := matched,
      engineSpawned := false }
  | some capG =>
    -- Lines 150-152: re-read, stamp started_timestamp, save.
    let cap1 := { capG with started_timestamp := some env.now }
    let db3 := saveCapture db2 cap1
    if env.makedirsFails then
      -- os.makedirs raised: catch-all handler marks failed, stamps, saves.
      let capF := { cap1 with status := "failed", ended_timestamp := some env.now }
      { db := saveCapture db3 capF, capture := some capF, delayed := [],
        signals := [], sleeps := [], casExecuted := true, casMatched := matched,
        engineSpawned := false }
    else
      let rv := runEngineAndVerify env cap1 cid
      { db := saveCapture db3 rv.1, capture := some rv.1, delayed := [],
        signals := rv.2.1, sleeps := rv.2.2, casExecuted := true,
        casMatched := matched, engineSpawned := true }

/-- tasks.py lines 32-303: the body of the try statement together with its
exception handlers (everything before the finally block). -/
def tryBody (env : Env) (port : Nat) : Mid :=
  if env.sentinelExists then
    -- Lines 75-78: sentinel present, return (the finally still runs).
    mid0 env
  else
    match selectOldestPending env.db with
    | none =>
      -- Lines 111-112: no pending capture, return (no probe is issued).
      mid0 env
    | some cap0 =>
      if proxyPortIsAvailable env.probe then
        claimedPipeline env cap0
      else
        -- Lines 103-106: port busy, delay on port+1 and return.
        { mid0 env with delayed := [port + 1] }

/-- tasks.py lines 307-320: the finally block.  Fires the webhook if the
in-memory capture is set and carries a (truthy) callback url — a delivery
failure only logs — then unconditionally enqueues the next cycle on the
same port. -/
def finallyBlock (env : Env) (port : Nat) (m : Mid) : Result :=
  let posts : List (String × Nat) :=
    match m.capture with
    | some c =>
      match c.callback_url with
      | some u => if u.isEmpty then [] else [(u, 10)]
      | none => []
    | none => []
  let postFailures : List String :=
    if env.webhookOk then [] else posts.map (fun pr => pr.1)
  { db := m.db, capture := m.capture, delayed := m.delayed ++ [port],
    signals := m.signals, sleeps := m.sleeps, posts := posts,
    postFailures := postFailures, casExecuted := m.casExecuted,
    casMatched := m.casMatched, engineSpawned := m.engineSpawned }

/-- A Result with no effects at all and the store untouched (the early
return at tasks.py lines 28-30, which precedes the try/finally). -/
def noEffect (env : Env) : Result :=
  { db := env.db, capture := none, delayed := [], signals := [], sleeps := [],
    posts := [], postFailures := [], casExecuted := false, casMatched := 0,
    engineSpawned := false }

/-- tasks.py lines 20-320: one invocation of `start_capture_process`.
The `proxy_port` argument is `Option Nat`: `none` models a Python `None`
(falsy, like `some 0`). -/
def start_capture_process (env : Env) (proxy_port : Option Nat) : Result :=
  match proxy_port with
  | none => noEffect env
  | some port =>
    if port == 0 || decide (port > 65535) then noEffect env
    else finallyBlock env port (tryBody env port)

end Scoop

namespace Scoop

/-! ## Helper lemmas about the job-store operations -/

theorem oldest_mem {l : List Capture} {c : Capture}
    (h : oldest l = some c) : c ∈ l := by
  induction l with
  | nil => simp [oldest] at h
  | cons a t ih =>
    simp only [oldest] at h
    cases ht : oldest t with
    | none =>
      rw [ht] at h
      simp only [Option.some.injEq] at h
      subst h
      exact List.mem_cons_self a t
    | some b =>
      rw [ht] at h
      by_cases hle : a.created_timestamp ≤ b.created_timestamp
      · simp only [hle, if_pos] at h
        simp only [Option.some.injEq] at h
        subst h
        exact List.mem_cons_self a t
      · simp only [hle, if_neg, not_false_eq_true] at h
        simp only [Option.some.injEq] at h
        subst h
        exact List.mem_cons_of_mem a (ih ht)

theorem selectOldestPending_mem {db : List Capture} {c : Capture}
    (h : selectOldestPending db = some c) : c ∈ db ∧ c.status = "pending" := by
  have hm := oldest_mem h
  rw [List.mem_filter] at hm
  refine ⟨hm.1, ?_⟩
  have := hm.2
  simpa using this

theorem getById_map_of_id_preserving (db : List Capture) (g : Capture → Capture)
    (hg : ∀ c, (g c).id_capture = c.id_capture) (cid : Nat) :
    getById (db.map g) cid = (getById db cid).map g := by
  induction db with
  | nil => rfl
  | cons a t ih =>
    simp only [getById, List.map_cons, List.find?] at *
    rw [hg a]
    cases h : (a.id_capture == cid) with
    | true => simp
    | false => simpa using ih

theorem getById_claimUpdate (db : List Capture) (cid : Nat) :
    getById (claimUpdate db cid) cid =
      (getById db cid).map (fun c =>
        if c.id_capture == cid && c.status == "pending"
        then { c with status := "started" } else c) := by
  apply getById_map_of_id_preserving
  intro c
  by_cases h : (c.id_capture == cid && c.status == "pending") = true
  · simp [h]
  · simp [h]

theorem getById_raceInterfere (db : List Capture) (cid : Nat) :
    getById (raceInterfere db cid) cid =
      (getById db cid).map (fun c =>
        if c.id_capture == cid then { c with status := "started" } else c) := by
  apply getById_map_of_id_preserving
  intro c
  by_cases h : (c.id_capture == cid) = true
  · simp [h]
  · simp [h]

theorem getById_saveCapture (db : List Capture) (cap x : Capture)
    (h : getById db cap.id_capture = some x) :
    getById (saveCapture db cap) cap.id_capture = some cap := by
  have hmap := getById_map_of_id_preserving db
    (fun c => if c.id_capture == cap.id_capture then cap else c)
    (fun c => by
      by_cases hc : (c.id_capture == cap.id_capture) = true
      · simp only [hc, if_pos]
        exact (eq_of_beq hc).symm
      · simp [hc]) cap.id_capture
  have hx : (x.id_capture == cap.id_capture) = true := by
    have := List.find?_some h
    simpa using this
  have hxe : x.id_capture = cap.id_capture := eq_of_beq hx
  rw [saveCapture, hmap, h]
  simp [hxe]

theorem checkAttachmentFiles_eq_all (fs : List String) (apath : String)
    (files : List String) (b : Bool) :
    checkAttachmentFiles fs apath files b =
      (b && files.all (fun f => fs.contains (apath ++ sep ++ f))) := by
  induction files generalizing b with
  | nil => simp [checkAttachmentFiles]
  | cons f t ih =>
    simp only [checkAttachmentFiles] at ih
    simp only [checkAttachmentFiles, List.foldl_cons, List.all_cons]
    cases hc : fs.contains (apath ++ sep ++ f) with
    | true =>
      rw [if_pos rfl, ih b]
      simp
    | false =>
      rw [if_neg (by simp), ih false]
      simp

end Scoop

namespace Scoop

/-! ## Lemmas about the engine run and verification step -/

theorem runEngineAndVerify_preserves (env : Env) (cap1 : Capture) (cid : Nat) :
    (runEngineAndVerify env cap1 cid).1.id_capture = cap1.id_capture ∧
    (runEngineAndVerify env cap1 cid).1.callback_url = cap1.callback_url ∧
    (runEngineAndVerify env cap1 cid).1.exit_code = cap1.exit_code ∧
    (runEngineAndVerify env cap1 cid).1.started_timestamp = cap1.started_timestamp := by
  unfold runEngineAndVerify
  cases env.engine with
  | timedOut => simp
  | completed poll out err =>
    dsimp only
    split
    · split
      · cases env.manifestDoc <;> simp
      · simp
    · simp

theorem runEngineAndVerify_timeout (env : Env) (cap1 : Capture) (cid : Nat)
    (heng : env.engine = EngineResult.timedOut) :
    runEngineAndVerify env cap1 cid =
      ({ cap1 with status := "failed", ended_timestamp := some env.now },
       [Signal.kill], []) := by
  unfold runEngineAndVerify
  rw [heng]

theorem runEngineAndVerify_logs (env : Env) (cap1 : Capture) (cid : Nat)
    (poll : Option Int) (out err : String)
    (heng : env.engine = EngineResult.completed poll out err) :
    (runEngineAndVerify env cap1 cid).1.stdout_logs = some out ∧
    (runEngineAndVerify env cap1 cid).1.stderr_logs = some err := by
  unfold runEngineAndVerify
  rw [heng]
  dsimp only
  split
  · split
    · cases env.manifestDoc <;> simp
    · simp
  · simp

theorem runEngineAndVerify_status (env : Env) (cap1 : Capture) (cid : Nat)
    (poll : Option Int) (out err : String) (m : Manifest)
    (heng : env.engine = EngineResult.completed poll out err)
    (hman : env.manifestDoc = some m) :
    (runEngineAndVerify env cap1 cid).1.status =
      (if (poll == some 0
           && env.fs.contains (archivePath env.cfg cid)
           && env.fs.contains (jsonSummaryPath env.cfg cid)
           && (flattenAttachments m.attachments).all
                (fun f => env.fs.contains (attachmentsPath env.cfg cid ++ sep ++ f)))
       then "success" else "failed") := by
  unfold runEngineAndVerify
  rw [heng]
  dsimp only
  by_cases h0 : (poll == some 0) = true
  · rw [if_pos h0]
    by_cases hab : (env.fs.contains (archivePath env.cfg cid)
        && env.fs.contains (jsonSummaryPath env.cfg cid)) = true
    · rw [if_pos hab, hman]
      dsimp only
      rw [checkAttachmentFiles_eq_all]
      have ha := (Bool.and_eq_true _ _).mp hab
      have ha1 : archivePath env.cfg cid ∈ env.fs := by
        have := ha.1
        simpa using this
      have ha2 : jsonSummaryPath env.cfg cid ∈ env.fs := by
        have := ha.2
        simpa using this
      simp [h0, ha1, ha2]
    · rw [if_neg hab]
      have hor : (env.fs.contains (archivePath env.cfg cid) = false) ∨
          (env.fs.contains (jsonSummaryPath env.cfg cid) = false) := by
        cases hA : env.fs.contains (archivePath env.cfg cid) <;>
          cases hB : env.fs.contains (jsonSummaryPath env.cfg cid) <;>
          simp_all
      rcases hor with h | h
      · have hn : archivePath env.cfg cid ∉ env.fs := by simpa using h
        simp [hn]
      · have hn : jsonSummaryPath env.cfg cid ∉ env.fs := by simpa using h
        simp [hn]
  · rw [if_neg h0]
    simp [h0]

end Scoop

namespace Scoop

/-! ## Unfolding lemmas for the cycle pipeline -/

/-- Shorthand for the in-memory record right after the claim and stamp
(tasks.py lines 141-152). -/
def stampedCapture (cap : Capture) (now : Nat) : Capture :=
  { cap with status := "started", started_timestamp := some now }

theorem claimedPipeline_eq (env : Env) (cap : Capture)
    (hget : getById env.db cap.id_capture = some cap)
    (hpend : cap.status = "pending")
    (hrace : env.raceClaim = false)
    (hmk : env.makedirsFails = false) :
    claimedPipeline env cap =
      { db := saveCapture
          (saveCapture (claimUpdate env.db cap.id_capture)
            (stampedCapture cap env.now))
          (runEngineAndVerify env (stampedCapture cap env.now) cap.id_capture).1,
        capture :=
          some (runEngineAndVerify env (stampedCapture cap env.now) cap.id_capture).1,
        delayed := [],
        signals :=
          (runEngineAndVerify env (stampedCapture cap env.now) cap.id_capture).2.1,
        sleeps :=
          (runEngineAndVerify env (stampedCapture cap env.now) cap.id_capture).2.2,
        casExecuted := true,
        casMatched := claimMatched env.db cap.id_capture,
        engineSpawned := true } := by
  have hgu : getById (claimUpdate env.db cap.id_capture) cap.id_capture =
      some { cap with status := "started" } := by
    rw [getById_claimUpdate, hget]
    simp [hpend]
  unfold claimedPipeline
  rw [hrace]
  simp only [Bool.false_eq_true, if_false, hgu, hmk]
  rfl

theorem tryBody_sentinel (env : Env) (port : Nat)
    (hsent : env.sentinelExists = true) :
    tryBody env port = mid0 env := by
  unfold tryBody
  rw [hsent]
  rfl

theorem tryBody_noPending (env : Env) (port : Nat)
    (hsent : env.sentinelExists = false)
    (hsel : selectOldestPending env.db = none) :
    tryBody env port = mid0 env := by
  unfold tryBody
  rw [hsent, hsel]
  rfl

theorem tryBody_busy (env : Env) (port : Nat) (cap : Capture)
    (hsent : env.sentinelExists = false)
    (hsel : selectOldestPending env.db = some cap)
    (hbusy : proxyPortIsAvailable env.probe = false) :
    tryBody env port = { mid0 env with delayed := [port + 1] } := by
  unfold tryBody
  rw [hsent, hsel]
  simp [hbusy]

theorem tryBody_claimed (env : Env) (port : Nat) (cap : Capture)
    (hsent : env.sentinelExists = false)
    (hsel : selectOldestPending env.db = some cap)
    (hfree : proxyPortIsAvailable env.probe = true) :
    tryBody env port = claimedPipeline env cap := by
  unfold tryBody
  rw [hsent, hsel]
  simp [hfree]

theorem run_valid (env : Env) (port : Nat)
    (h0 : port ≠ 0) (h1 : port ≤ 65535) :
    start_capture_process env (some port) =
      finallyBlock env port (tryBody env port) := by
  unfold start_capture_process
  have hb : (port == 0 || decide (port > 65535)) = false := by
    simp [h0, Nat.not_lt.mpr h1]
  dsimp only
  rw [hb]
  rfl

theorem finallyBlock_posts_some (env : Env) (port : Nat) (m : Mid)
    (c : Capture) (u : String)
    (hc : m.capture = some c) (hu : c.callback_url = some u)
    (hne : u.isEmpty = false) :
    (finallyBlock env port m).posts = [(u, 10)] := by
  unfold finallyBlock
  simp only [hc, hu, hne, Bool.false_eq_true, if_false]

end Scoop

namespace Scoop

theorem getById_saveCapture_of_id (db : List Capture) (cap x : Capture)
    (cid : Nat) (hid : cap.id_capture = cid) (h : getById db cid = some x) :
    getById (saveCapture db cap) cid = some cap := by
  subst hid
  exact getById_saveCapture db cap x h

theorem claimedPipeline_final (env : Env) (cap : Capture)
    (hget : getById env.db cap.id_capture = some cap)
    (hpend : cap.status = "pending")
    (hrace : env.raceClaim = false)
    (hmk : env.makedirsFails = false) :
    getById (claimedPipeline env cap).db cap.id_capture =
      some (runEngineAndVerify env (stampedCapture cap env.now) cap.id_capture).1 := by
  rw [claimedPipeline_eq env cap hget hpend hrace hmk]
  have hgu : getById (claimUpdate env.db cap.id_capture) cap.id_capture =
      some { cap with status := "started" } := by
    rw [getById_claimUpdate, hget]
    simp [hpend]
  have h1 : getById
      (saveCapture (claimUpdate env.db cap.id_capture) (stampedCapture cap env.now))
      cap.id_capture = some (stampedCapture cap env.now) :=
    getById_saveCapture_of_id _ _ _ _ rfl hgu
  exact getById_saveCapture_of_id _ _ _ _
    (runEngineAndVerify_preserves env (stampedCapture cap env.now) cap.id_capture).1 h1

theorem claimedPipeline_delayed (env : Env) (cap : Capture) :
    (claimedPipeline env cap).delayed = [] := by
  unfold claimedPipeline
  dsimp only
  split
  · rfl
  · split
    · rfl
    · rfl

/-! ## Concrete fixtures for the witnesses and counterexamples -/

/-- A configuration used by the concrete witnesses. -/
def cfg0 : Config :=
  { temporary_storage_path := "tmp", downgrade_to_warc := false,
    capture_timeout_ms := 60000, scoop_timeout_fuse := 60 }

/-- A pending capture job used by the concrete witnesses. -/
def capA : Capture :=
  { id_capture := 1, url := "https://example.com",
    callback_url := some "https://hooks.example.com/done", status := "pending",
    created_timestamp := 10, started_timestamp := none, ended_timestamp := none,
    stdout_logs := none, stderr_logs := none, summary := none, exit_code := none }

/-- A fully successful environment: sentinel absent, port free, engine exits
0, archive, summary and the one listed attachment all on disk. -/
def envA : Env :=
  { cfg := cfg0, sentinelExists := false, db := [capA],
    probe := ProbeOutcome.otherError, raceClaim := false, now := 42,
    makedirsFails := false,
    engine := EngineResult.completed (some 0) "scoop out" "scoop err",
    fs := ["tmp/1/archive.wacz", "tmp/1/archive.json", "tmp/1/attachments/cert.pem"],
    manifestDoc := some { attachments := [Sum.inl "cert.pem"] },
    webhookOk := true }

/-! ## Claim C3 -/

/-- C3 counterexample: the claim states that a probe receiving a successful
HTTP response is classified free, i.e. that `proxy_port_is_available` is
True in that case.  In the code (tasks.py lines 96-97) a returned response
sets the flag to False, so the port is classified busy. -/
theorem c3_counterexample :
    ¬ (proxyPortIsAvailable ProbeOutcome.response = true) := by
  decide

/-- C3 (amended): a read-timeout is classified busy, any other probe failure
is classified free, and a successful HTTP response is classified busy. -/
theorem c3_probe_classification :
    proxyPortIsAvailable ProbeOutcome.readTimeout = false ∧
    proxyPortIsAvailable ProbeOutcome.otherError = true ∧
    proxyPortIsAvailable ProbeOutcome.response = false := by
  decide

/-! ## Claim C10 -/

/-- C10: a falsy proxy_port (None or 0) or one above 65535 makes the task
return before the try block: no job read or modified, no claim, no engine,
no signal, no webhook, and no continuation cycle scheduled. -/
theorem c10_invalid_port (env : Env) (p : Option Nat)
    (h : p = none ∨ p = some 0 ∨ ∃ n, p = some n ∧ n > 65535) :
    (start_capture_process env p).db = env.db ∧
    (start_capture_process env p).delayed = [] ∧
    (start_capture_process env p).casExecuted = false ∧
    (start_capture_process env p).engineSpawned = false ∧
    (start_capture_process env p).signals = [] ∧
    (start_capture_process env p).posts = [] := by
  rcases h with h | h | ⟨n, h, hn⟩ <;> subst h <;>
    simp [start_capture_process, noEffect, *]

/-- C10 witness at proxy_port 70000. -/
theorem c10_witness :
    (some 70000 = (none : Option Nat) ∨ some 70000 = some 0 ∨
      ∃ n, some 70000 = some n ∧ n > 65535) ∧
    ((start_capture_process envA (some 70000)).db = envA.db ∧
     (start_capture_process envA (some 70000)).delayed = [] ∧
     (start_capture_process envA (some 70000)).casExecuted = false ∧
     (start_capture_process envA (some 70000)).engineSpawned = false ∧
     (start_capture_process envA (some 70000)).signals = [] ∧
     (start_capture_process envA (some 70000)).posts = []) :=
  ⟨Or.inr (Or.inr ⟨70000, rfl, by decide⟩),
   c10_invalid_port envA (some 70000) (Or.inr (Or.inr ⟨70000, rfl, by decide⟩))⟩

/-! ## Claim C2 -/

/-- Environment with the deployment sentinel present. -/
def envSentinel : Env := { envA with sentinelExists := true }

/-- C2 counterexample: with the sentinel present at cycle start, the cycle
nevertheless schedules a next cycle — the return at tasks.py line 78 is
inside the try block, so the finally block at lines 307-320 still calls
`start_capture_process.delay`.  The claim that no continuation task is
enqueued is false. -/
theorem c2_counterexample :
    ¬ ((start_capture_process envSentinel (some 9000)).delayed = []) := by
  decide

/-- C2 (amended): if the sentinel exists at cycle start the cycle exits
without attempting any job claim, without touching the job store and
without running the engine, but the finally block still enqueues exactly
one continuation task on the same port. -/
theorem c2_sentinel (env : Env) (port : Nat)
    (h0 : port ≠ 0) (h1 : port ≤ 65535)
    (hsent : env.sentinelExists = true) :
    (start_capture_process env (some port)).casExecuted = false ∧
    (start_capture_process env (some port)).engineSpawned = false ∧
    (start_capture_process env (some port)).db = env.db ∧
    (start_capture_process env (some port)).posts = [] ∧
    (start_capture_process env (some port)).delayed = [port] := by
  rw [run_valid env port h0 h1, tryBody_sentinel env port hsent]
  simp [finallyBlock, mid0]

/-- C2 witness at port 9000 with the sentinel present. -/
theorem c2_witness :
    (9000 ≠ 0) ∧ (9000 ≤ 65535) ∧ envSentinel.sentinelExists = true ∧
    ((start_capture_process envSentinel (some 9000)).casExecuted = false ∧
     (start_capture_process envSentinel (some 9000)).engineSpawned = false ∧
     (start_capture_process envSentinel (some 9000)).db = envSentinel.db ∧
     (start_capture_process envSentinel (some 9000)).posts = [] ∧
     (start_capture_process envSentinel (some 9000)).delayed = [9000]) :=
  ⟨by decide, by decide, rfl,
   c2_sentinel envSentinel 9000 (by decide) (by decide) rfl⟩

/-! ## Claim C6 -/

/-- C6: a cycle with a pending job and a busy port aborts without executing
the claim update, leaves the job store untouched, never spawns the engine,
and schedules the next cycle on port + 1 (the finally block then adds the
unconditional continuation on the original port as well). -/
theorem c6_port_busy (env : Env) (port : Nat) (cap : Capture)
    (h0 : port ≠ 0) (h1 : port ≤ 65535)
    (hsent : env.sentinelExists = false)
    (hsel : selectOldestPending env.db = some cap)
    (hbusy : proxyPortIsAvailable env.probe = false) :
    (start_capture_process env (some port)).casExecuted = false ∧
    (start_capture_process env (some port)).engineSpawned = false ∧
    (start_capture_process env (some port)).db = env.db ∧
    (start_capture_process env (some port)).delayed = [port + 1, port] := by
  rw [run_valid env port h0 h1, tryBody_busy env port cap hsent hsel hbusy]
  simp [finallyBlock, mid0]

/-- Environment with a pending job and a busy (read-timeout) port. -/
def envBusy : Env := { envA with probe := ProbeOutcome.readTimeout }

/-- C6 witness at port 9000 with a read-timeout probe. -/
theorem c6_witness :
    (9000 ≠ 0) ∧ (9000 ≤ 65535) ∧ envBusy.sentinelExists = false ∧
    selectOldestPending envBusy.db = some capA ∧
    proxyPortIsAvailable envBusy.probe = false ∧
    ((start_capture_process envBusy (some 9000)).casExecuted = false ∧
     (start_capture_process envBusy (some 9000)).engineSpawned = false ∧
     (start_capture_process envBusy (some 9000)).db = envBusy.db ∧
     (start_capture_process envBusy (some 9000)).delayed = [9001, 9000]) :=
  ⟨by decide, by decide, rfl, by decide, rfl,
   c6_port_busy envBusy 9000 capA (by decide) (by decide) rfl (by decide) rfl⟩

/-! ## Claim C9 -/

/-- C9: every invocation that passes the initial port-validity guard ends
with the finally block enqueuing exactly one continuation task on the same
port, on every control path — sentinel present, no pending work, busy port
and full pipeline alike; on the busy-port path this makes two continuations
in total, the first on port + 1. -/
theorem c9_always_reschedules (env : Env) (port : Nat)
    (h0 : port ≠ 0) (h1 : port ≤ 65535) :
    (start_capture_process env (some port)).delayed =
      (if env.sentinelExists = false ∧
          (selectOldestPending env.db).isSome = true ∧
          proxyPortIsAvailable env.probe = false
       then [port + 1, port] else [port]) := by
  rw [run_valid env port h0 h1]
  cases hsent : env.sentinelExists with
  | true =>
    rw [tryBody_sentinel env port hsent]
    simp [finallyBlock, mid0, hsent]
  | false =>
    cases hsel : selectOldestPending env.db with
    | none =>
      rw [tryBody_noPending env port hsent hsel]
      simp [finallyBlock, mid0, hsent, hsel]
    | some cap =>
      cases hav : proxyPortIsAvailable env.probe with
      | false =>
        rw [tryBody_busy env port cap hsent hsel hav]
        simp [finallyBlock, mid0, hsent, hsel, hav]
      | true =>
        rw [tryBody_claimed env port cap hsent hsel hav]
        simp [finallyBlock, claimedPipeline_delayed, hsent, hsel, hav]

/-- C9 witness at port 9000 in the fully successful environment. -/
theorem c9_witness :
    (9000 ≠ 0) ∧ (9000 ≤ 65535) ∧
    (start_capture_process envA (some 9000)).delayed =
      (if envA.sentinelExists = false ∧
          (selectOldestPending envA.db).isSome = true ∧
          proxyPortIsAvailable envA.probe = false
       then [9001, 9000] else [9000]) :=
  ⟨by decide, by decide, c9_always_reschedules envA 9000 (by decide) (by decide)⟩

end Scoop

namespace Scoop

theorem finallyBlock_db (env : Env) (port : Nat) (m : Mid) :
    (finallyBlock env port m).db = m.db := rfl

theorem finallyBlock_signals (env : Env) (port : Nat) (m : Mid) :
    (finallyBlock env port m).signals = m.signals := rfl

theorem finallyBlock_sleeps (env : Env) (port : Nat) (m : Mid) :
    (finallyBlock env port m).sleeps = m.sleeps := rfl

theorem finallyBlock_capture (env : Env) (port : Nat) (m : Mid) :
    (finallyBlock env port m).capture = m.capture := rfl

theorem if_success_iff (b : Bool) :
    ((if b then "success" else "failed") : String) = "success" ↔ b = true := by
  have hne : ("failed" : String) ≠ "success" := by decide
  cases b
  · simp [hne]
  · simp

/-! ## Claim C1 -/

/-- C1: for a cycle that claims a job and runs the engine to completion
(with a parseable manifest), the final persisted status is success exactly
when the exit code is 0, the archive file exists, the summary file exists,
and every filename in the flattened attachments map exists under the
attachments folder; otherwise it is failed. -/
theorem c1_success_iff (env : Env) (port : Nat) (cap : Capture)
    (poll : Option Int) (out err : String) (m : Manifest)
    (h0 : port ≠ 0) (h1 : port ≤ 65535)
    (hsent : env.sentinelExists = false)
    (hsel : selectOldestPending env.db = some cap)
    (hget : getById env.db cap.id_capture = some cap)
    (hfree : proxyPortIsAvailable env.probe = true)
    (hrace : env.raceClaim = false)
    (hmk : env.makedirsFails = false)
    (heng : env.engine = EngineResult.completed poll out err)
    (hman : env.manifestDoc = some m) :
    ∃ c, getById (start_capture_process env (some port)).db cap.id_capture = some c ∧
      (c.status = "success" ↔
        (poll = some 0 ∧
         env.fs.contains (archivePath env.cfg cap.id_capture) = true ∧
         env.fs.contains (jsonSummaryPath env.cfg cap.id_capture) = true ∧
         ∀ f ∈ flattenAttachments m.attachments,
           env.fs.contains (attachmentsPath env.cfg cap.id_capture ++ sep ++ f) = true)) ∧
      (c.status = "success" ∨ c.status = "failed") := by
  have hpend : cap.status = "pending" := (selectOldestPending_mem hsel).2
  rw [run_valid env port h0 h1, finallyBlock_db,
    tryBody_claimed env port cap hsent hsel hfree]
  refine ⟨(runEngineAndVerify env (stampedCapture cap env.now) cap.id_capture).1,
    claimedPipeline_final env cap hget hpend hrace hmk, ?_, ?_⟩
  · rw [runEngineAndVerify_status env (stampedCapture cap env.now) cap.id_capture
      poll out err m heng hman, if_success_iff]
    simp only [Bool.and_eq_true, and_assoc, beq_iff_eq, List.all_eq_true]
  · rw [runEngineAndVerify_status env (stampedCapture cap env.now) cap.id_capture
      poll out err m heng hman]
    split
    · exact Or.inl rfl
    · exact Or.inr rfl

end Scoop

namespace Scoop

/-- The manifest used by the concrete witnesses. -/
def mA : Manifest := { attachments := [Sum.inl "cert.pem"] }

/-- C1 witness: in envA (engine exits 0, all artifacts on disk) the final
status is success exactly per the verified equivalence. -/
theorem c1_witness :
    selectOldestPending envA.db = some capA ∧
    getById envA.db capA.id_capture = some capA ∧
    (∃ c, getById (start_capture_process envA (some 9000)).db capA.id_capture = some c ∧
      (c.status = "success" ↔
        (some (0 : Int) = some 0 ∧
         envA.fs.contains (archivePath envA.cfg capA.id_capture) = true ∧
         envA.fs.contains (jsonSummaryPath envA.cfg capA.id_capture) = true ∧
         ∀ f ∈ flattenAttachments mA.attachments,
           envA.fs.contains (attachmentsPath envA.cfg capA.id_capture ++ sep ++ f) = true)) ∧
      (c.status = "success" ∨ c.status = "failed")) :=
  ⟨by decide, by decide,
   c1_success_iff envA 9000 capA (some 0) "scoop out" "scoop err" mA
     (by decide) (by decide) rfl (by decide) (by decide) rfl rfl rfl rfl rfl⟩

end Scoop

namespace Scoop

/-! ## Claim C5 -/

/-- Environment in which the engine outlives the communicate timeout. -/
def envTimeout : Env := { envA with engine := EngineResult.timedOut }

/-- C5 counterexample: on the timeout path the process never receives a
graceful terminate signal — the TimeoutExpired handler (tasks.py lines
271-279) calls process.kill() directly, with no grace period.  The claim
that a terminate signal precedes the kill is false. -/
theorem c5_counterexample :
    Signal.terminate ∉ (start_capture_process envTimeout (some 9000)).signals ∧
    (start_capture_process envTimeout (some 9000)).signals = [Signal.kill] ∧
    (start_capture_process envTimeout (some 9000)).sleeps = [] := by
  decide

/-- C5 (amended): an engine run that exceeds the communicate bound (soft
capture timeout + fuse) receives a single force-kill signal immediately —
no graceful terminate and no grace-period sleep — and the job's final
persisted status is failed. -/
theorem c5_timeout_kill (env : Env) (port : Nat) (cap : Capture)
    (h0 : port ≠ 0) (h1 : port ≤ 65535)
    (hsent : env.sentinelExists = false)
    (hsel : selectOldestPending env.db = some cap)
    (hget : getById env.db cap.id_capture = some cap)
    (hfree : proxyPortIsAvailable env.probe = true)
    (hrace : env.raceClaim = false)
    (hmk : env.makedirsFails = false)
    (heng : env.engine = EngineResult.timedOut) :
    (start_capture_process env (some port)).signals = [Signal.kill] ∧
    Signal.terminate ∉ (start_capture_process env (some port)).signals ∧
    (start_capture_process env (some port)).sleeps = [] ∧
    ∃ c, getById (start_capture_process env (some port)).db cap.id_capture = some c ∧
      c.status = "failed" := by
  have hpend : cap.status = "pending" := (selectOldestPending_mem hsel).2
  have hrv := runEngineAndVerify_timeout env (stampedCapture cap env.now)
    cap.id_capture heng
  refine ⟨?_, ?_, ?_, ?_⟩
  · rw [run_valid env port h0 h1, finallyBlock_signals,
      tryBody_claimed env port cap hsent hsel hfree,
      claimedPipeline_eq env cap hget hpend hrace hmk]
    rw [hrv]
  · rw [run_valid env port h0 h1, finallyBlock_signals,
      tryBody_claimed env port cap hsent hsel hfree,
      claimedPipeline_eq env cap hget hpend hrace hmk]
    rw [hrv]
    show Signal.terminate ∉ [Signal.kill]
    decide
  · rw [run_valid env port h0 h1, finallyBlock_sleeps,
      tryBody_claimed env port cap hsent hsel hfree,
      claimedPipeline_eq env cap hget hpend hrace hmk]
    rw [hrv]
  · rw [run_valid env port h0 h1, finallyBlock_db,
      tryBody_claimed env port cap hsent hsel hfree]
    refine ⟨(runEngineAndVerify env (stampedCapture cap env.now) cap.id_capture).1,
      claimedPipeline_final env cap hget hpend hrace hmk, ?_⟩
    rw [hrv]

/-- C5 witness at envTimeout. -/
theorem c5_witness :
    selectOldestPending envTimeout.db = some capA ∧
    envTimeout.engine = EngineResult.timedOut ∧
    ((start_capture_process envTimeout (some 9000)).signals = [Signal.kill] ∧
     Signal.terminate ∉ (start_capture_process envTimeout (some 9000)).signals ∧
     (start_capture_process envTimeout (some 9000)).sleeps = [] ∧
     ∃ c, getById (start_capture_process envTimeout (some 9000)).db capA.id_capture = some c ∧
       c.status = "failed") :=
  ⟨by decide, rfl,
   c5_timeout_kill envTimeout 9000 capA (by decide) (by decide) rfl (by decide)
     (by decide) rfl rfl rfl rfl⟩

end Scoop

namespace Scoop

/-! ## Claim C7 -/

/-- C7 counterexample: a cycle that spawned the engine and hit the timeout
path persists neither stream nor the exit code on the job record — both
log fields and exit_code are still NULL after the cycle, although the
engine was spawned. -/
theorem c7_counterexample :
    (start_capture_process envTimeout (some 9000)).engineSpawned = true ∧
    ((getById (start_capture_process envTimeout (some 9000)).db 1).map
      (fun c => (c.stdout_logs, c.stderr_logs, c.exit_code))) =
      some (none, none, none) := by
  decide

/-- C7 (amended): when the engine run completes (communicate returns), both
captured streams are persisted on the job record, on the success and
verification-failure paths alike; the exit code is never written to the
record on any path, and on the timeout path neither stream is written
(all three fields keep their prior values). -/
theorem c7_persistence (env : Env) (port : Nat) (cap : Capture)
    (h0 : port ≠ 0) (h1 : port ≤ 65535)
    (hsent : env.sentinelExists = false)
    (hsel : selectOldestPending env.db = some cap)
    (hget : getById env.db cap.id_capture = some cap)
    (hfree : proxyPortIsAvailable env.probe = true)
    (hrace : env.raceClaim = false)
    (hmk : env.makedirsFails = false) :
    (∀ poll : Option Int, ∀ out err : String,
      env.engine = EngineResult.completed poll out err →
      ∃ c, getById (start_capture_process env (some port)).db cap.id_capture = some c ∧
        c.stdout_logs = some out ∧ c.stderr_logs = some err ∧
        c.exit_code = cap.exit_code) ∧
    (env.engine = EngineResult.timedOut →
      ∃ c, getById (start_capture_process env (some port)).db cap.id_capture = some c ∧
        c.stdout_logs = cap.stdout_logs ∧ c.stderr_logs = cap.stderr_logs ∧
        c.exit_code = cap.exit_code) := by
  have hpend : cap.status = "pending" := (selectOldestPending_mem hsel).2
  constructor
  · intro poll out err heng
    rw [run_valid env port h0 h1, finallyBlock_db,
      tryBody_claimed env port cap hsent hsel hfree]
    refine ⟨(runEngineAndVerify env (stampedCapture cap env.now) cap.id_capture).1,
      claimedPipeline_final env cap hget hpend hrace hmk, ?_, ?_, ?_⟩
    · exact (runEngineAndVerify_logs env (stampedCapture cap env.now)
        cap.id_capture poll out err heng).1
    · exact (runEngineAndVerify_logs env (stampedCapture cap env.now)
        cap.id_capture poll out err heng).2
    · exact (runEngineAndVerify_preserves env (stampedCapture cap env.now)
        cap.id_capture).2.2.1
  · intro heng
    rw [run_valid env port h0 h1, finallyBlock_db,
      tryBody_claimed env port cap hsent hsel hfree]
    refine ⟨(runEngineAndVerify env (stampedCapture cap env.now) cap.id_capture).1,
      claimedPipeline_final env cap hget hpend hrace hmk, ?_, ?_, ?_⟩
    · rw [runEngineAndVerify_timeout env (stampedCapture cap env.now)
        cap.id_capture heng]
      exact rfl
    · rw [runEngineAndVerify_timeout env (stampedCapture cap env.now)
        cap.id_capture heng]
      exact rfl
    · rw [runEngineAndVerify_timeout env (stampedCapture cap env.now)
        cap.id_capture heng]
      exact rfl

/-- C7 witness: in envA the completed engine run persists both streams and
leaves exit_code untouched (NULL). -/
theorem c7_witness :
    selectOldestPending envA.db = some capA ∧
    envA.engine = EngineResult.completed (some 0) "scoop out" "scoop err" ∧
    (∃ c, getById (start_capture_process envA (some 9000)).db capA.id_capture = some c ∧
      c.stdout_logs = some "scoop out" ∧ c.stderr_logs = some "scoop err" ∧
      c.exit_code = capA.exit_code) :=
  ⟨by decide, rfl,
   (c7_persistence envA 9000 capA (by decide) (by decide) rfl (by decide)
       (by decide) rfl rfl rfl).1 (some 0) "scoop out" "scoop err" rfl⟩

/-! ## Claim C8 -/

/-- C8: every terminal cycle (one that selected and claimed a job) whose job
carries a callback url makes exactly one webhook POST attempt, with a 10s
timeout; and the cycle outcome — persisted store and the attempt list — is
the same whether the delivery succeeds or fails. -/
theorem c8_webhook (env : Env) (port : Nat) (cap : Capture) (u : String)
    (h0 : port ≠ 0) (h1 : port ≤ 65535)
    (hsent : env.sentinelExists = false)
    (hsel : selectOldestPending env.db = some cap)
    (hget : getById env.db cap.id_capture = some cap)
    (hfree : proxyPortIsAvailable env.probe = true)
    (hrace : env.raceClaim = false)
    (hmk : env.makedirsFails = false)
    (hcb : cap.callback_url = some u) (hne : u.isEmpty = false) :
    (start_capture_process env (some port)).posts = [(u, 10)] ∧
    (start_capture_process { env with webhookOk := false } (some port)).db =
      (start_capture_process env (some port)).db ∧
    (start_capture_process { env with webhookOk := false } (some port)).posts =
      (start_capture_process env (some port)).posts := by
  have hpend : cap.status = "pending" := (selectOldestPending_mem hsel).2
  refine ⟨?_, ?_, ?_⟩
  · rw [run_valid env port h0 h1]
    have hcap : (tryBody env port).capture =
        some (runEngineAndVerify env (stampedCapture cap env.now) cap.id_capture).1 := by
      rw [tryBody_claimed env port cap hsent hsel hfree,
        claimedPipeline_eq env cap hget hpend hrace hmk]
    have hurl : (runEngineAndVerify env (stampedCapture cap env.now)
        cap.id_capture).1.callback_url = some u := by
      rw [(runEngineAndVerify_preserves env (stampedCapture cap env.now)
        cap.id_capture).2.1]
      exact hcb
    exact finallyBlock_posts_some env port (tryBody env port) _ u hcap hurl hne
  · rw [run_valid env port h0 h1,
      run_valid { env with webhookOk := false } port h0 h1]
    rfl
  · rw [run_valid env port h0 h1,
      run_valid { env with webhookOk := false } port h0 h1]
    rfl

/-- C8 witness in envA (callback url set; delivery succeeding or failing
leaves the persisted store identical). -/
theorem c8_witness :
    capA.callback_url = some "https://hooks.example.com/done" ∧
    ((start_capture_process envA (some 9000)).posts =
       [("https://hooks.example.com/done", 10)] ∧
     (start_capture_process { envA with webhookOk := false } (some 9000)).db =
       (start_capture_process envA (some 9000)).db ∧
     (start_capture_process { envA with webhookOk := false } (some 9000)).posts =
       (start_capture_process envA (some 9000)).posts) :=
  ⟨rfl,
   c8_webhook envA 9000 capA "https://hooks.example.com/done"
     (by decide) (by decide) rfl (by decide) (by decide) rfl rfl rfl rfl rfl⟩

/-! ## Claim C4 -/

/-- Environment in which a concurrent worker wins the claim race between
this cycle's select and its conditional update. -/
def envRace : Env := { envA with raceClaim := true }

/-- C4: the code never inspects the row count of the conditional claim
update.  In envRace the update matches zero rows (the job is already
started by the other worker), yet this cycle still stamps
started_timestamp, saves the record, and spawns the engine — the job is
reprocessed rather than treated as no work. -/
theorem c4_ignores_claim_race :
    (start_capture_process envRace (some 9000)).casMatched = 0 ∧
    (start_capture_process envRace (some 9000)).engineSpawned = true ∧
    ((getById (start_capture_process envRace (some 9000)).db 1).map
      (fun c => c.started_timestamp)) = some (some 42) := by
  decide

end Scoop
